import Mathlib

/-!
Verification of the PSP core module (wallet table, distribution calculator,
genesis record) against its natural-language specification.

The Python source is embedded shallowly:

* Monetary amounts are exact rationals (`ℚ`).  Every literal in the source is
  a short decimal, and the only numeric comparison in the code is a tolerance
  check (`abs (total - 7.5) < 0.001`) that is far coarser than any binary
  floating-point rounding, so the exact-decimal reading is faithful.
* Python `None` becomes `Option.none`; functions that may return `None`
  return an `Option`.
* Python dicts that are used as records with a fixed key set become
  structures; the two lookup helpers that build a merged dict
  (`{"name": key, **config}` in the source) are modelled with an explicit
  association-list dictionary so that the merge/override semantics of the
  source is captured, not assumed.
* `datetime.now(...)` is a wall-clock effect; the functions that call it take
  the produced ISO string as an explicit argument and thread it through.
-/

namespace PSP

/-- One value of the eight-entry `GREEK_WALLETS` dict in `constants.py`.
Field names and order follow the Python dict literal; `special_rule` is the
only key that is present on some entries (`gaia`) and absent on the rest. -/
structure WalletConfig where
  name : String
  role : String
  display_role : String
  psp_amount : ℚ
  percentage : ℚ
  description : String
  destination_type : String
  immutable : Bool
  special_rule : Option String
deriving DecidableEq, Repr

/-- `TOTAL_PSP_PER_TRANSACTION = 7.500` from `constants.py`. -/
def TOTAL_PSP_PER_TRANSACTION : ℚ := 7.500

/-- The `GREEK_WALLETS` table from `constants.py`, as an association list in
the insertion order of the source (Python dicts preserve insertion order). -/
def GREEK_WALLETS : List (String × WalletConfig) :=
  [ ("athena",
     { name := "Athena", role := "foundation", display_role := "PSP Foundation",
       psp_amount := 2.000, percentage := 26.67,
       description := "Proof Of Service Protocol Foundation - Operational expenses",
       destination_type := "foundation", immutable := false, special_rule := none }),
    ("hermes",
     { name := "Hermes", role := "platform", display_role := "Platform Operations",
       psp_amount := 1.225, percentage := 16.33,
       description := "Platform operations and services",
       destination_type := "platform", immutable := false, special_rule := none }),
    ("chronos",
     { name := "Chronos", role := "development", display_role := "Development Team",
       psp_amount := 1.125, percentage := 15.00,
       description := "Development team rewards",
       destination_type := "developers", immutable := false, special_rule := none }),
    ("prometheus",
     { name := "Prometheus", role := "worker", display_role := "Worker/Technician",
       psp_amount := 1.000, percentage := 13.33,
       description := "Worker rewards for completed services",
       destination_type := "user", immutable := false, special_rule := none }),
    ("apollo",
     { name := "Apollo", role := "client", display_role := "Client",
       psp_amount := 1.000, percentage := 13.33,
       description := "Client rewards for confirmed services",
       destination_type := "user", immutable := false, special_rule := none }),
    ("gaia",
     { name := "Gaia", role := "property", display_role := "Property NFT",
       psp_amount := 1.000, percentage := 13.33,
       description := "Property NFT rewards - Portable Protocol",
       destination_type := "property_nft", immutable := false,
       special_rule := some "PSP goes directly to PropertyNFT, not to user. Transfers with property ownership." }),
    ("zeus",
     { name := "Zeus", role := "dao", display_role := "DAO/Protocol",
       psp_amount := 0.075, percentage := 1.00,
       description := "Protocol DAO governance reserve - Immutable 1%",
       destination_type := "dao", immutable := true, special_rule := none }),
    ("olympus",
     { name := "Olympus", role := "legal", display_role := "Legal Operations",
       psp_amount := 0.075, percentage := 1.00,
       description := "Community legal operations - Immutable 1%",
       destination_type := "legal", immutable := true, special_rule := none }) ]

/-- `validate_total` from `constants.py`: the sum of all `psp_amount` fields
is within `0.001` of the fixed total. -/
def validate_total : Bool :=
  decide (|(GREEK_WALLETS.map (fun p => p.2.psp_amount)).sum - TOTAL_PSP_PER_TRANSACTION| < 0.001)

/-! ### Python-dict values, for the two lookup helpers that return merged dicts -/

/-- A Python value as it occurs in a wallet config dict: a string, a number
or a boolean. -/
inductive PyVal where
  | str : String → PyVal
  | num : ℚ → PyVal
  | bool : Bool → PyVal
deriving DecidableEq, Repr

/-- A Python dict as an insertion-ordered association list. -/
abbrev PyDict : Type := List (String × PyVal)

/-- Setting a key in a Python dict: an existing key keeps its position but
takes the new value; a fresh key is appended. -/
def dictSet (d : PyDict) (k : String) (v : PyVal) : PyDict :=
  if d.any (fun p => p.1 = k) then
    d.map (fun p => if p.1 = k then (k, v) else p)
  else d ++ [(k, v)]

/-- Building a Python dict from a left-to-right sequence of key/value pairs,
as a dict literal (including `**` splices) does: later pairs override
earlier ones. -/
def dictOfPairs (ps : List (String × PyVal)) : PyDict :=
  ps.foldl (fun d p => dictSet d p.1 p.2) []

/-- Reading a key from a Python dict. -/
def dictGet (d : PyDict) (k : String) : Option PyVal :=
  (d.find? (fun p => p.1 = k)).map Prod.snd

/-- The key/value pairs of one wallet config, in the order of the Python dict
literal in `constants.py` (with `special_rule` last when present). -/
def configPairs (c : WalletConfig) : List (String × PyVal) :=
  [ ("name", PyVal.str c.name),
    ("role", PyVal.str c.role),
    ("display_role", PyVal.str c.display_role),
    ("psp_amount", PyVal.num c.psp_amount),
    ("percentage", PyVal.num c.percentage),
    ("description", PyVal.str c.description),
    ("destination_type", PyVal.str c.destination_type),
    ("immutable", PyVal.bool c.immutable) ]
  ++ (match c.special_rule with
      | some s => [("special_rule", PyVal.str s)]
      | none => [])

/-- `get_wallet_info` from `distribution.py`: `None` for an unknown key,
otherwise the merged dict `\x7b"name": wallet_name, **config\x7d` (so the
splice of `config` comes second and its pairs override). -/
def get_wallet_info (wallet_name : String) : Option PyDict :=
  match GREEK_WALLETS.find? (fun p => p.1 = wallet_name) with
  | none => none
  | some p => some (dictOfPairs (("name", PyVal.str wallet_name) :: configPairs p.2))

/-- `get_wallet_by_role` from `constants.py`: the first table entry whose
`role` matches, returned as the merged dict `\x7b"name": name, **config\x7d`;
`None` when no entry matches. -/
def get_wallet_by_role (role : String) : Option PyDict :=
  match GREEK_WALLETS.find? (fun p => p.2.role = role) with
  | none => none
  | some p => some (dictOfPairs (("name", PyVal.str p.1) :: configPairs p.2))

/-! ### Distribution calculator (`distribution.py`) -/

/-- One emission of `distribute_classic_7_5`, with the fields the source
copies from the wallet table. -/
structure GenericEmission where
  wallet : String
  name : String
  role : String
  amount_psp : ℚ
  percentage : ℚ
  destination_type : String
deriving DecidableEq, Repr

/-- The result dict of `distribute_classic_7_5`. -/
structure GenericResult where
  emissions : List GenericEmission
  total_psp : ℚ
  verified : Bool
  timestamp : String
deriving DecidableEq, Repr

/-- `distribute_classic_7_5` from `distribution.py`; `now` is the ISO string
produced by `datetime.now(timezone.utc).isoformat()`. -/
def distribute_classic_7_5 (now : String) : GenericResult :=
  let emissions := GREEK_WALLETS.map (fun p =>
    { wallet := p.1, name := p.2.name, role := p.2.role,
      amount_psp := p.2.psp_amount, percentage := p.2.percentage,
      destination_type := p.2.destination_type : GenericEmission })
  let total := (emissions.map (fun e => e.amount_psp)).sum
  { emissions := emissions, total_psp := total,
    verified := decide (|total - TOTAL_PSP_PER_TRANSACTION| < 0.001),
    timestamp := now }

/-- One emission of `distribute_for_service`, with the fields of the literal
dicts in the source; `destination_id` is `none` where the source writes
`None`. -/
structure ServiceEmission where
  wallet : String
  amount_psp : ℚ
  destination_type : String
  destination_id : Option Int
  role : String
deriving DecidableEq, Repr

/-- The `eternal_rules_applied` block of a `distribute_for_service` result. -/
structure EternalRulesApplied where
  zeus_1_percent : Bool
  olympus_1_percent : Bool
  satoshi_principle : Bool
deriving DecidableEq, Repr

/-- The result dict of `distribute_for_service`. -/
structure ServiceResult where
  certificate_id : Option Int
  timestamp : String
  total_psp : ℚ
  service_value_usd : ℚ
  dapp_origen : String
  emissions : List ServiceEmission
  verified : Bool
  eternal_rules_applied : EternalRulesApplied
deriving DecidableEq, Repr

/-- `distribute_for_service` from `distribution.py`, with the literal
emission list of the source (in source order); `now` is the ISO timestamp
string the source obtains from the wall clock.  The Python defaults are
`property_id=None`, `certificate_id=None`, `service_value_usd=0.0`,
`dapp_origen="generic"`. -/
def distribute_for_service (worker_id client_id : Int)
    (property_id certificate_id : Option Int)
    (service_value_usd : ℚ) (dapp_origen : String) (now : String) :
    ServiceResult :=
  let emissions : List ServiceEmission :=
    [ { wallet := "athena", amount_psp := 2.000, destination_type := "foundation",
        destination_id := none, role := "PSP Foundation" },
      { wallet := "hermes", amount_psp := 1.225, destination_type := "platform",
        destination_id := none, role := "Platform" },
      { wallet := "chronos", amount_psp := 1.125, destination_type := "developers",
        destination_id := none, role := "Developers" },
      { wallet := "prometheus", amount_psp := 1.000, destination_type := "user",
        destination_id := some worker_id, role := "Worker" },
      { wallet := "apollo", amount_psp := 1.000, destination_type := "user",
        destination_id := some client_id, role := "Client" },
      { wallet := "gaia", amount_psp := 1.000, destination_type := "property_nft",
        destination_id := property_id, role := "Property NFT" },
      { wallet := "zeus", amount_psp := 0.075, destination_type := "dao",
        destination_id := none, role := "DAO/Protocol" },
      { wallet := "olympus", amount_psp := 0.075, destination_type := "legal",
        destination_id := none, role := "Legal" } ]
  let total := (emissions.map (fun e => e.amount_psp)).sum
  { certificate_id := certificate_id, timestamp := now, total_psp := total,
    service_value_usd := service_value_usd, dapp_origen := dapp_origen,
    emissions := emissions,
    verified := decide (|total - TOTAL_PSP_PER_TRANSACTION| < 0.001),
    eternal_rules_applied :=
      { zeus_1_percent := true, olympus_1_percent := true,
        satoshi_principle := true } }

/-! ### SHA-256 over byte lists (for `genesis.py`)

`genesis.py` hashes with `hashlib.sha256`; the algorithm is embedded here
executably, with 32-bit words as naturals reduced modulo `2 ^ 32`. -/

/-- Reduction modulo `2 ^ 32`, the word size of SHA-256. -/
def w32 (n : Nat) : Nat := n % 4294967296

/-- Right rotation of a 32-bit word by `k` bits. -/
def rotr (k x : Nat) : Nat := w32 ((x >>> k) ||| (x <<< (32 - k)))

/-- Bitwise complement of a 32-bit word. -/
def bnot32 (x : Nat) : Nat := x ^^^ 4294967295

/-- The SHA-256 `Ch` function. -/
def shaCh (x y z : Nat) : Nat := (x &&& y) ^^^ (bnot32 x &&& z)

/-- The SHA-256 `Maj` function. -/
def shaMaj (x y z : Nat) : Nat := (x &&& y) ^^^ (x &&& z) ^^^ (y &&& z)

/-- The SHA-256 `Σ0` function. -/
def bigSigma0 (x : Nat) : Nat := rotr 2 x ^^^ rotr 13 x ^^^ rotr 22 x

/-- The SHA-256 `Σ1` function. -/
def bigSigma1 (x : Nat) : Nat := rotr 6 x ^^^ rotr 11 x ^^^ rotr 25 x

/-- The SHA-256 `σ0` function. -/
def smallSigma0 (x : Nat) : Nat := rotr 7 x ^^^ rotr 18 x ^^^ (x >>> 3)

/-- The SHA-256 `σ1` function. -/
def smallSigma1 (x : Nat) : Nat := rotr 17 x ^^^ rotr 19 x ^^^ (x >>> 10)

/-- Binary search for the integer `e`-th root of `n` on the interval
`[lo, hi)`, with explicit fuel (the invariant is `lo ^ e ≤ n < hi ^ e`). -/
def introotAux (e n : Nat) : Nat → Nat → Nat → Nat
  | 0, lo, _ => lo
  | fuel + 1, lo, hi =>
      if hi ≤ lo + 1 then lo
      else
        let mid := (lo + hi) / 2
        if mid ^ e ≤ n then introotAux e n fuel mid hi
        else introotAux e n fuel lo mid

/-- The integer `e`-th root `⌊n ^ (1/e)⌋`. -/
def introot (e n : Nat) : Nat := introotAux e n 200 0 (n + 1)

/-- The first 32 fractional bits of the real `e`-th root of `p`, as FIPS
180-4 specifies the SHA-256 constants: `⌊2 ^ 32 * frac (p ^ (1/e))⌋`,
computed as the integer `e`-th root of `p * 2 ^ (32 * e)` reduced modulo
`2 ^ 32`. -/
def fracRootWord (e p : Nat) : Nat := introot e (p * 2 ^ (32 * e)) % 4294967296

/-- The first sixty-four primes, in order. -/
def first64Primes : List Nat :=
  [ 2, 3, 5, 7, 11, 13, 17, 19, 23, 29, 31, 37, 41, 43, 47, 53,
    59, 61, 67, 71, 73, 79, 83, 89, 97, 101, 103, 107, 109, 113, 127, 131,
    137, 139, 149, 151, 157, 163, 167, 173, 179, 181, 191, 193, 197, 199, 211, 223,
    227, 229, 233, 239, 241, 251, 257, 263, 269, 271, 277, 281, 283, 293, 307, 311 ]

/-- The 64 SHA-256 round constants: the fractional cube-root bits of the
first sixty-four primes (FIPS 180-4, section 4.2.2). -/
def shaK : List Nat := first64Primes.map (fracRootWord 3)

/-- The SHA-256 initial hash state: the fractional square-root bits of the
first eight primes (FIPS 180-4, section 5.3.3). -/
def shaH0 : List Nat := (first64Primes.take 8).map (fracRootWord 2)

/-- `k` bytes of `n`, big-endian. -/
def beBytes : Nat → Nat → List Nat
  | 0, _ => []
  | k + 1, n => ((n >>> (8 * k)) % 256) :: beBytes k n

/-- SHA-256 padding: append `0x80`, zero bytes up to 56 modulo 64, then the
bit length as 8 big-endian bytes. -/
def padMessage (msg : List Nat) : List Nat :=
  let z := (120 - (msg.length + 1) % 64) % 64
  msg ++ (128 :: List.replicate z 0) ++ beBytes 8 (8 * msg.length)

/-- Big-endian 32-bit words of a byte list. -/
def toWords : List Nat → List Nat
  | a :: b :: c :: d :: rest =>
      (a * 16777216 + b * 65536 + c * 256 + d) :: toWords rest
  | _ => []

/-- One extension step of the message schedule: appends the next word. -/
def scheduleStep (ws : List Nat) : List Nat :=
  let i := ws.length
  ws ++ [w32 (smallSigma1 (ws.getD (i - 2) 0) + ws.getD (i - 7) 0 +
              smallSigma0 (ws.getD (i - 15) 0) + ws.getD (i - 16) 0)]

/-- The 64-word message schedule of one block (16 words extended 48 times). -/
def schedule (ws : List Nat) : List Nat := Nat.repeat scheduleStep 48 ws

/-- One SHA-256 compression round on the eight-word working state. -/
def shaRound (k w : Nat) : List Nat → List Nat
  | [a, b, c, d, e, f, g, h] =>
      let t1 := w32 (h + bigSigma1 e + shaCh e f g + k + w)
      let t2 := w32 (bigSigma0 a + shaMaj a b c)
      [w32 (t1 + t2), a, b, c, w32 (d + t1), e, f, g]
  | st => st

/-- Compression of one 64-byte block into the running hash state. -/
def compress (h : List Nat) (block : List Nat) : List Nat :=
  let ws := schedule (toWords block)
  let final := (shaK.zip ws).foldl (fun st p => shaRound p.1 p.2 st) h
  (h.zip final).map (fun p => w32 (p.1 + p.2))

/-- Folds `n` 64-byte blocks of `bytes` into the hash state. -/
def sha256Blocks : Nat → List Nat → List Nat → List Nat
  | 0, h, _ => h
  | n + 1, h, bytes => sha256Blocks n (compress h (bytes.take 64)) (bytes.drop 64)

/-- SHA-256 of a byte list, as the eight 32-bit words of the digest. -/
def sha256 (msg : List Nat) : List Nat :=
  let padded := padMessage msg
  sha256Blocks (padded.length / 64) shaH0 padded

/-- The lowercase hex digit for a value below 16. -/
def hexChar (n : Nat) : Char :=
  if n < 10 then Char.ofNat (48 + n) else Char.ofNat (87 + n)

/-- The last `k` hex digits of `n`, most significant first. -/
def hexDigits : Nat → Nat → List Char
  | 0, _ => []
  | k + 1, n => hexDigits k (n / 16) ++ [hexChar (n % 16)]

/-- `hashlib.sha256(...).hexdigest()`: the digest words as 64 lowercase hex
characters. -/
def sha256hex (msg : List Nat) : String :=
  String.mk (((sha256 msg).map (hexDigits 8)).flatten)

/-- UTF-8 encoding of one character, as bytes. -/
def utf8Encode (c : Char) : List Nat :=
  let n := c.toNat
  if n < 128 then [n]
  else if n < 2048 then [192 + n / 64, 128 + n % 64]
  else if n < 65536 then [224 + n / 4096, 128 + (n / 64) % 64, 128 + n % 64]
  else [240 + n / 262144, 128 + (n / 4096) % 64, 128 + (n / 64) % 64, 128 + n % 64]

/-- `str.encode("utf-8")`: the UTF-8 bytes of a string. -/
def strBytes (s : String) : List Nat := (s.toList.map utf8Encode).flatten

/-! ### Genesis record (`genesis.py`) -/

/-- The fields of the `GENESIS_BLOCK` dict literal in `genesis.py`; the
`immutable_rules` sub-dict is inlined as the last three fields. -/
structure GenesisBlock where
  block_number : Nat
  version : String
  timestamp : String
  previous_hash : String
  protocol : String
  total_psp_per_transaction : ℚ
  message : String
  principles : List String
  satoshi_legacy : String
  wallets : List String
  zeus_percentage : ℚ
  olympus_percentage : ℚ
  total_psp_fixed : ℚ
deriving DecidableEq, Repr

/-- `GENESIS_BLOCK` from `genesis.py`.  The numeric fields are written with
`mkRat` (`mkRat 7500 1000` is the decimal `7.500`, `mkRat 100 100` the
decimal `1.00`) so that their numerator/denominator projections reduce
definitionally, which the hash evaluation below needs. -/
def GENESIS_BLOCK : GenesisBlock :=
  { block_number := 0,
    version := "1.0.0",
    timestamp := "2025-12-01T00:00:00Z",
    previous_hash := String.mk (List.replicate 64 '0'),
    protocol := "Proof Of Service Protocol",
    total_psp_per_transaction := mkRat 7500 1000,
    message := "SmartWork Always Leads To Greatness",
    principles :=
      [ "Radical Trust", "Total Transparency", "Real Utility",
        "Shared Responsibility", "Progressive Inclusion",
        "Respect for Time and Effort" ],
    satoshi_legacy := "Without verified physical work, there is no emission.",
    wallets :=
      [ "athena", "hermes", "chronos", "prometheus",
        "apollo", "gaia", "zeus", "olympus" ],
    zeus_percentage := mkRat 100 100,
    olympus_percentage := mkRat 100 100,
    total_psp_fixed := mkRat 7500 1000 }

/-- The decimal digit character for a value below 10. -/
def digitChar (n : Nat) : Char := Char.ofNat (48 + n)

/-- The decimal digits of `n`, most significant first; the first argument is
fuel that strictly exceeds the digit count. -/
def natDigits : Nat → Nat → List Char
  | 0, _ => []
  | fuel + 1, n => if n < 10 then [digitChar n] else natDigits fuel (n / 10) ++ [digitChar (n % 10)]

/-- `str(n)` for a natural number. -/
def natStr (n : Nat) : String := String.mk (natDigits (n + 1) n)

/-- The smallest `k` with `den ∣ 10 ^ k`, for a reduced denominator `den`
(with fuel 30 as a cutoff, never reached by the literals interpolated here):
each step removes the factors of 10. -/
def denExp : Nat → Nat → Nat
  | 0, _ => 0
  | fuel + 1, den => if den = 1 then 0 else denExp fuel (den / Nat.gcd den 10) + 1

/-- The number of decimal digits needed after the point to write `q`
exactly. -/
def decDigits (q : ℚ) : Nat := denExp 30 q.den

/-- Python float formatting (`f"..."` / `repr`) for the nonnegative
exactly-representable decimals interpolated into the genesis string: the
shortest decimal expansion, with at least one digit after the point (so the
float `7.5` prints as `7.5` and `1.00` prints as `1.0`).  The scaled
mantissa `q * 10 ^ k` is computed on the numerator and denominator directly
(`10 ^ k` is a multiple of the reduced denominator, so the division is
exact). -/
def pyFloatStr (q : ℚ) : String :=
  let d := decDigits q
  let k := if d = 0 then 1 else d
  let digits := natStr (q.num.natAbs * 10 ^ k / q.den)
  let digits :=
    if digits.length < k + 1 then
      String.mk (List.replicate (k + 1 - digits.length) '0') ++ digits
    else digits
  let l := digits.toList
  String.mk (l.take (l.length - k)) ++ "." ++ String.mk (l.drop (l.length - k))

/-- The pipe-delimited string the source builds with an f-string inside
`_compute_genesis_hash`, field by field in source order. -/
def genesis_string (b : GenesisBlock) : String :=
  "block:" ++ natStr b.block_number ++
  "|version:" ++ b.version ++
  "|timestamp:" ++ b.timestamp ++
  "|protocol:" ++ b.protocol ++
  "|psp:" ++ pyFloatStr b.total_psp_per_transaction ++
  "|message:" ++ b.message ++
  "|satoshi:" ++ b.satoshi_legacy ++
  "|wallets:" ++ String.intercalate "," b.wallets ++
  "|zeus:" ++ pyFloatStr b.zeus_percentage ++
  "|olympus:" ++ pyFloatStr b.olympus_percentage

/-- `_compute_genesis_hash` from `genesis.py` (the leading underscore of the
Python name is dropped): the SHA-256 hex digest of the UTF-8 bytes of the
pipe-delimited genesis string. -/
def compute_genesis_hash : String :=
  sha256hex (strBytes (genesis_string GENESIS_BLOCK))

/-- `GENESIS_HASH` from `genesis.py`. -/
def GENESIS_HASH : String := compute_genesis_hash

/-- The result dict of `verify_genesis`; `provided_hash` and `matches` are
`none` exactly when the source leaves those keys out of the dict. -/
structure VerifyResult where
  genesis_hash : String
  block_number : Nat
  timestamp : String
  protocol_version : String
  total_psp : ℚ
  wallet_count : Nat
  verified : Bool
  provided_hash : Option String
  matches? : Option Bool
deriving DecidableEq, Repr

/-- `verify_genesis` from `genesis.py`.  The source guards the comparison
with `if provided_hash:`, which is Python truthiness: both `None` and the
empty string skip the comparison branch. -/
def verify_genesis (provided_hash : Option String) : VerifyResult :=
  let computed := compute_genesis_hash
  let base : VerifyResult :=
    { genesis_hash := computed, block_number := 0,
      timestamp := GENESIS_BLOCK.timestamp,
      protocol_version := GENESIS_BLOCK.version,
      total_psp := GENESIS_BLOCK.total_psp_per_transaction,
      wallet_count := GENESIS_BLOCK.wallets.length,
      verified := true, provided_hash := none, matches? := none }
  match provided_hash with
  | none => base
  | some s =>
      if s = "" then base
      else
        { base with provided_hash := some s,
                    matches? := some (decide (computed = s)),
                    verified := decide (computed = s) }

/-! ### Spec-side definitions used by the claims -/

/-- Rounding to two decimal places (round half up), as in the spec:
"`amount / total * 100` within rounding" for the stored `percentage`
fields. -/
def round2 (q : ℚ) : ℚ := (⌊q * 100 + 1 / 2⌋ : ℚ) / 100

/-- The canonical pre-hash string as the spec describes it: the ten listed
fields, in the listed order, pipe-delimited, with the wallet key list joined
by commas (the numeric fields printed as the Python floats `7.5`, `1.0` and
`1.0`). -/
def canonicalGenesisString : String :=
  "block:0" ++ "|" ++
  "version:1.0.0" ++ "|" ++
  "timestamp:2025-12-01T00:00:00Z" ++ "|" ++
  "protocol:Proof Of Service Protocol" ++ "|" ++
  "psp:7.5" ++ "|" ++
  "message:SmartWork Always Leads To Greatness" ++ "|" ++
  "satoshi:Without verified physical work, there is no emission." ++ "|" ++
  "wallets:" ++ String.intercalate "," GENESIS_BLOCK.wallets ++ "|" ++
  "zeus:1.0" ++ "|" ++
  "olympus:1.0"

/-- Sixty-four `0` characters, the deliberately wrong digest that the spec
feeds to `verify_genesis`. -/
def zeros64 : String := String.mk (List.replicate 64 '0')

/-! ## Theorems for the claims -/

/-- Claim C1: calling the per-service distribution with `worker_id = 42`,
`client_id = 7`, `property_id = 9`, `certificate_id = 100`, service value
`250.0` and origin tag `handyplan` returns exactly eight emissions —
athena 2.000 (no destination id), hermes 1.225 (none), chronos 1.125
(none), prometheus 1.000 (destination 42), apollo 1.000 (destination 7),
gaia 1.000 (destination 9), zeus 0.075 (none), olympus 0.075 (none) — with
total 7.500 and verification flag true. -/
theorem claim_C1 (now : String) :
    (distribute_for_service 42 7 (some 9) (some 100) 250.0 "handyplan" now).emissions
      = [ { wallet := "athena", amount_psp := 2.000, destination_type := "foundation",
            destination_id := none, role := "PSP Foundation" },
          { wallet := "hermes", amount_psp := 1.225, destination_type := "platform",
            destination_id := none, role := "Platform" },
          { wallet := "chronos", amount_psp := 1.125, destination_type := "developers",
            destination_id := none, role := "Developers" },
          { wallet := "prometheus", amount_psp := 1.000, destination_type := "user",
            destination_id := some 42, role := "Worker" },
          { wallet := "apollo", amount_psp := 1.000, destination_type := "user",
            destination_id := some 7, role := "Client" },
          { wallet := "gaia", amount_psp := 1.000, destination_type := "property_nft",
            destination_id := some 9, role := "Property NFT" },
          { wallet := "zeus", amount_psp := 0.075, destination_type := "dao",
            destination_id := none, role := "DAO/Protocol" },
          { wallet := "olympus", amount_psp := 0.075, destination_type := "legal",
            destination_id := none, role := "Legal" } ] ∧
    (distribute_for_service 42 7 (some 9) (some 100) 250.0 "handyplan" now).emissions.length = 8 ∧
    (distribute_for_service 42 7 (some 9) (some 100) 250.0 "handyplan" now).total_psp = 7.500 ∧
    (distribute_for_service 42 7 (some 9) (some 100) 250.0 "handyplan" now).verified = true := by
  refine ⟨rfl, rfl, ?_, ?_⟩
  · show (2.000 : ℚ) + (1.225 + (1.125 + (1.000 + (1.000 + (1.000 + (0.075 + (0.075 + 0))))))) = 7.500
    norm_num
  · show decide _ = true
    simp only [distribute_for_service, List.map_cons, List.map_nil, List.sum_cons, List.sum_nil,
      TOTAL_PSP_PER_TRANSACTION, decide_eq_true_eq]
    norm_num

/-- Claim C2: for every wallet key, the generic distribution and the
per-service distribution (for any choice of its arguments) emit the same
amount and the same destination type: looking a key up in either emission
list, projected to (wallet, amount, destination type), gives the same
answer. -/
theorem claim_C2 (key : String) (now : String) (worker_id client_id : Int)
    (property_id certificate_id : Option Int) (service_value : ℚ)
    (origin inner_now : String) :
    List.lookup key ((distribute_classic_7_5 now).emissions.map
        (fun e => (e.wallet, (e.amount_psp, e.destination_type))))
      = List.lookup key ((distribute_for_service worker_id client_id property_id
            certificate_id service_value origin inner_now).emissions.map
        (fun e => (e.wallet, (e.amount_psp, e.destination_type)))) :=
  congrArg (List.lookup key) rfl

/-- Claim C3: every one of the eight wallet entries has a strictly positive
amount, the amounts sum to within 0.001 of 7.500, and `validate_total`
returns true on the unmodified table. -/
theorem claim_C3 :
    (∀ p ∈ GREEK_WALLETS, 0 < p.2.psp_amount) ∧
    |(GREEK_WALLETS.map (fun p => p.2.psp_amount)).sum - 7.500| < 0.001 ∧
    validate_total = true := by
  refine ⟨?_, ?_, ?_⟩
  · intro p hp
    fin_cases hp <;> norm_num
  · simp only [GREEK_WALLETS, List.map_cons, List.map_nil, List.sum_cons, List.sum_nil]
    norm_num
  · simp only [validate_total, GREEK_WALLETS, TOTAL_PSP_PER_TRANSACTION, List.map_cons,
      List.map_nil, List.sum_cons, List.sum_nil, decide_eq_true_eq]
    norm_num

set_option maxRecDepth 1000000 in
/-- The pipe-delimited string the code hashes is exactly the canonical
string of the spec (same fields, same order, same delimiters). -/
theorem genesis_string_canonical : genesis_string GENESIS_BLOCK = canonicalGenesisString := by
  decide

/-- Claim C4: the genesis digest is the SHA-256 hash of the pipe-delimited
string built from exactly these fields in exactly this order: block number,
version, timestamp, protocol name, total-per-transaction, message, satoshi
legacy string, comma-joined wallet key list, zeus percentage, olympus
percentage. -/
theorem claim_C4 : GENESIS_HASH = sha256hex (strBytes canonicalGenesisString) :=
  congrArg (fun s => sha256hex (strBytes s)) genesis_string_canonical

set_option maxRecDepth 1000000 in
/-- The concrete value of the genesis digest in this model, obtained by
kernel evaluation of the embedded SHA-256. -/
theorem genesis_hash_value :
    compute_genesis_hash = "9735c220461aa07cf93d7ad6152fdf32446e782e1e50066a571936b9906f2b9d" := by
  decide

set_option maxRecDepth 1000000 in
/-- Claim C5: `verify_genesis` with no argument returns verified true and a
64-character hexadecimal digest; `verify_genesis` with sixty-four zero
characters returns matches false and verified false, and its reported
computed hash equals the digest of the no-argument call. -/
theorem claim_C5 :
    (verify_genesis none).verified = true ∧
    (verify_genesis none).genesis_hash.length = 64 ∧
    ((verify_genesis none).genesis_hash.toList.all
      (fun c => "0123456789abcdef".toList.contains c)) = true ∧
    (verify_genesis (some zeros64)).matches? = some false ∧
    (verify_genesis (some zeros64)).verified = false ∧
    (verify_genesis (some zeros64)).genesis_hash = (verify_genesis none).genesis_hash := by
  refine ⟨rfl, ?_, ?_, ?_, ?_, rfl⟩
  · show compute_genesis_hash.length = 64
    rw [genesis_hash_value]
    rfl
  · show (compute_genesis_hash.toList.all _) = true
    rw [genesis_hash_value]
    decide
  · show some (decide (compute_genesis_hash = zeros64)) = some false
    rw [genesis_hash_value]
    decide
  · show decide (compute_genesis_hash = zeros64) = false
    rw [genesis_hash_value]
    decide

/-- Claim C6: for every wallet entry, the stored percentage field equals the
amount divided by the total 7.500 and multiplied by 100, rounded to two
decimal places. -/
theorem claim_C6 :
    GREEK_WALLETS.map (fun p => p.2.percentage)
      = GREEK_WALLETS.map (fun p => round2 (p.2.psp_amount / TOTAL_PSP_PER_TRANSACTION * 100)) := by
  simp only [GREEK_WALLETS, TOTAL_PSP_PER_TRANSACTION, round2, List.map_cons, List.map_nil]
  norm_num

/-- Claim C7: looking a wallet up by a key that no table entry has, or by a
role that no table entry has, returns the explicit not-found signal `none`
(and hence never a partial or default record). -/
theorem claim_C7 (key role : String)
    (hkey : ∀ p ∈ GREEK_WALLETS, p.1 ≠ key)
    (hrole : ∀ p ∈ GREEK_WALLETS, p.2.role ≠ role) :
    get_wallet_info key = none ∧ get_wallet_by_role role = none := by
  have h1 : GREEK_WALLETS.find? (fun p => p.1 = key) = none := by
    rw [List.find?_eq_none]
    intro p hp
    simpa using hkey p hp
  have h2 : GREEK_WALLETS.find? (fun p => p.2.role = role) = none := by
    rw [List.find?_eq_none]
    intro p hp
    simpa using hrole p hp
  constructor
  · unfold get_wallet_info
    rw [h1]
  · unfold get_wallet_by_role
    rw [h2]

/-- Witness for claim C7: the key `poseidon` and the role `oracle` occur
nowhere in the table, and both lookups return `none`. -/
theorem claim_C7_witness :
    get_wallet_info "poseidon" = none ∧ get_wallet_by_role "oracle" = none :=
  claim_C7 "poseidon" "oracle" (by decide) (by decide)

/-- Claim C8: whenever the per-service distribution is called with
`property_id` omitted (the Python default `None`), the gaia emission
carries the explicit `none` as its destination id — not zero, not a
placeholder. -/
theorem claim_C8 (worker_id client_id : Int) (certificate_id : Option Int)
    (service_value : ℚ) (origin now : String) :
    ((distribute_for_service worker_id client_id none certificate_id service_value
        origin now).emissions.find? (fun e => e.wallet = "gaia")).map
      (fun e => e.destination_id) = some none := rfl

/-- Claim C9: for every successful lookup by key or by role, the returned
dict stores under `name` the display name from the table entry (for
example `Athena`), not the lookup key: in the merge the config pairs come
second and override the `name` pair holding the key, and display name and
key differ on every entry. -/
theorem claim_C9 :
    ∀ p ∈ GREEK_WALLETS,
      (get_wallet_info p.1).map (fun d => dictGet d "name")
        = some (some (PyVal.str p.2.name)) ∧
      (get_wallet_by_role p.2.role).map (fun d => dictGet d "name")
        = some (some (PyVal.str p.2.name)) ∧
      p.2.name ≠ p.1 := by decide

/-- Witness for claim C9, at the `athena` entry: both lookups return a dict
whose `name` value is the display name `Athena`, which differs from the
key `athena`. -/
theorem claim_C9_witness :
    (get_wallet_info "athena").map (fun d => dictGet d "name")
        = some (some (PyVal.str "Athena")) ∧
    (get_wallet_by_role "foundation").map (fun d => dictGet d "name")
        = some (some (PyVal.str "Athena")) ∧
    "Athena" ≠ "athena" :=
  claim_C9 ("athena",
    { name := "Athena", role := "foundation", display_role := "PSP Foundation",
      psp_amount := 2.000, percentage := 26.67,
      description := "Proof Of Service Protocol Foundation - Operational expenses",
      destination_type := "foundation", immutable := false, special_rule := none })
    (by simp [GREEK_WALLETS])

/-- Claim C10: calling `verify_genesis` with the empty string behaves
exactly like the no-argument call — the guard tests truthiness, and the
empty string is falsy — so the result equals the no-argument result, has
no matches and no provided-hash field, and is verified. -/
theorem claim_C10 :
    verify_genesis (some "") = verify_genesis none ∧
    (verify_genesis (some "")).matches? = none ∧
    (verify_genesis (some "")).provided_hash = none ∧
    (verify_genesis (some "")).verified = true :=
  ⟨rfl, rfl, rfl, rfl⟩

end PSP
